import Mathlib

set_option autoImplicit false

/-!
# Verification of the element-internals polyfill core

Shallow embedding of `src/src/element-internals.ts`.  Stateful DOM code is
modelled by explicit state passing over `InternalsState`; thrown exceptions
become `Except`/`Option JsError` results.  The collaborator modules
(`./ValidityState`, `./utils`, `./maps`) are not part of the provided source
tree, so their definitions are modelled from the specification, each one
marked by a doc comment beginning `Modelled from the spec:`.
-/

/-- Kind of a thrown JavaScript error, distinguishing the constructors the
source uses: `TypeError`, `DOMException`, a `DOMException` with the
`NotSupportedError` name, and the plain `Error` constructor. -/
inductive JsErrorKind where
  | typeError
  | domException
  | notSupportedError
  | plainError
deriving DecidableEq

/-- A thrown JavaScript error: its constructor kind and its message. -/
structure JsError where
  kind : JsErrorKind
  message : String
deriving DecidableEq

/-- Modelled from the spec: the `ValidityState` class of the missing
`./ValidityState` module — "a fixed, closed set of named boolean flags
(valueMissing, typeMismatch, patternMismatch, tooLong, tooShort,
rangeUnderflow, rangeOverflow, stepMismatch, badInput, customError)
plus one derived flag `valid`". -/
structure ValidityState where
  badInput : Bool
  customError : Bool
  patternMismatch : Bool
  rangeOverflow : Bool
  rangeUnderflow : Bool
  stepMismatch : Bool
  tooLong : Bool
  tooShort : Bool
  typeMismatch : Bool
  valueMissing : Bool
  valid : Bool
deriving DecidableEq

/-- Modelled from the spec: a fresh `ValidityState` is "created empty
(all flags false, valid = true)". -/
def initialValidityState : ValidityState :=
  { badInput := false, customError := false, patternMismatch := false
    rangeOverflow := false, rangeUnderflow := false, stepMismatch := false
    tooLong := false, tooShort := false, typeMismatch := false
    valueMissing := false, valid := true }

/-- The named (non-derived) validity flags: the shape of the `check` object
built by `setValidity` after `delete check.valid`. -/
structure CheckFlags where
  badInput : Bool
  customError : Bool
  patternMismatch : Bool
  rangeOverflow : Bool
  rangeUnderflow : Bool
  stepMismatch : Bool
  tooLong : Bool
  tooShort : Bool
  typeMismatch : Bool
  valueMissing : Bool
deriving DecidableEq

/-- Projection of a `ValidityState` to its named (non-derived) flags. -/
def namedFlagsOf (v : ValidityState) : CheckFlags :=
  { badInput := v.badInput, customError := v.customError
    patternMismatch := v.patternMismatch, rangeOverflow := v.rangeOverflow
    rangeUnderflow := v.rangeUnderflow, stepMismatch := v.stepMismatch
    tooLong := v.tooLong, tooShort := v.tooShort
    typeMismatch := v.typeMismatch, valueMissing := v.valueMissing }

/-- True when at least one named flag is set. -/
def anyTrue (c : CheckFlags) : Bool :=
  c.badInput || c.customError || c.patternMismatch || c.rangeOverflow ||
  c.rangeUnderflow || c.stepMismatch || c.tooLong || c.tooShort ||
  c.typeMismatch || c.valueMissing

/-- Modelled from the spec: the derived flag is
"valid = NOR(all other flags)". -/
def isValid (c : CheckFlags) : Bool :=
  !(anyTrue c)

/-- The first argument of `setValidity`: a JavaScript
`Partial<ValidityState>` object, one optional boolean per key, including a
(possibly present) `valid` key.  A field of `none` models an absent key. -/
structure ValidityChanges where
  badInput : Option Bool := none
  customError : Option Bool := none
  patternMismatch : Option Bool := none
  rangeOverflow : Option Bool := none
  rangeUnderflow : Option Bool := none
  stepMismatch : Option Bool := none
  tooLong : Option Bool := none
  tooShort : Option Bool := none
  typeMismatch : Option Bool := none
  valueMissing : Option Bool := none
  valid : Option Bool := none
deriving DecidableEq

/-- `Object.keys(validityChangesObj).length === 0`: no key is present. -/
def isEmptyChanges (p : ValidityChanges) : Bool :=
  p.badInput.isNone && p.customError.isNone && p.patternMismatch.isNone &&
  p.rangeOverflow.isNone && p.rangeUnderflow.isNone && p.stepMismatch.isNone &&
  p.tooLong.isNone && p.tooShort.isNone && p.typeMismatch.isNone &&
  p.valueMissing.isNone && p.valid.isNone

/-- The spread `{ ...validity, ...validityChangesObj }` followed by
`delete check.valid`: every named flag present in the changes overrides the
current value, absent keys keep the current value, and the `valid` key is
dropped. -/
def overlay (v : ValidityState) (p : ValidityChanges) : CheckFlags :=
  { badInput := p.badInput.getD v.badInput
    customError := p.customError.getD v.customError
    patternMismatch := p.patternMismatch.getD v.patternMismatch
    rangeOverflow := p.rangeOverflow.getD v.rangeOverflow
    rangeUnderflow := p.rangeUnderflow.getD v.rangeUnderflow
    stepMismatch := p.stepMismatch.getD v.stepMismatch
    tooLong := p.tooLong.getD v.tooLong
    tooShort := p.tooShort.getD v.tooShort
    typeMismatch := p.typeMismatch.getD v.typeMismatch
    valueMissing := p.valueMissing.getD v.valueMissing }

/-- Modelled from the spec: `setValid` of the missing `./ValidityState`
module — "If the set of flags is the empty set, this is shorthand for force
fully valid: reset all flags to false" (and the derived flag becomes true).
The JavaScript function mutates its argument in place; here the updated
value is returned. -/
def setValid (_v : ValidityState) : ValidityState :=
  initialValidityState

/-- Modelled from the spec: `reconcileValidty` of the missing
`./ValidityState` module — "merging a partial validity update into current
state and recomputing derived overall validity": every named flag of the
current state is overwritten with the merged `check` flags and
`valid = NOR(all non-derived flags)` is recomputed.  The JavaScript
function mutates the stored validity object in place; here the updated
value is returned (and the caller stores it). -/
def reconcileValidty (_v : ValidityState) (check : CheckFlags) : ValidityState :=
  { badInput := check.badInput, customError := check.customError
    patternMismatch := check.patternMismatch
    rangeOverflow := check.rangeOverflow
    rangeUnderflow := check.rangeUnderflow
    stepMismatch := check.stepMismatch
    tooLong := check.tooLong, tooShort := check.tooShort
    typeMismatch := check.typeMismatch, valueMissing := check.valueMissing
    valid := isValid check }

/-- JavaScript truthiness of `getAttribute(...)`: `null` (absent) and the
empty string are falsy. -/
def attrTruthy : Option String → Bool
  | none => false
  | some s => !(s == "")

/-- JavaScript falsiness of the optional `validationMessage` argument:
`undefined` (absent) and the empty string are falsy. -/
def msgFalsy : Option String → Bool
  | none => true
  | some m => m == ""

/-- The host custom element, with the attributes and properties the source
reads and writes.  `shadowRootRec` is the entry recorded for this element in
`shadowRootMap`; `parentForm`, `hasHostRoot` and `labelsQueryResult` model
the results of the external DOM collaborators (`findParentForm`,
`getHostRoot`, `querySelectorAll`). -/
structure HostElement where
  tagName : String
  formAssociated : Bool
  nameAttr : Option String
  idAttr : Option String
  disabledProp : Bool
  disabledAttr : Bool
  ariaInvalid : Option String
  shadowRootRec : Option Nat
  parentForm : Option Nat
  hasHostRoot : Bool
  labelsQueryResult : List Nat
deriving DecidableEq

/-- A hidden proxy input: its `name` property (absent when never assigned a
string) and its `value` property. -/
structure HiddenInput where
  name : Option String
  value : String
deriving DecidableEq

/-- A `FormData` entry value: a string or a file. -/
inductive FormDataEntryValue where
  | str (s : String)
  | file (id : Nat)
deriving DecidableEq

/-- The argument of `setFormValue`: a string, a `FormData` (an ordered
sequence of key/value entries), or `null`. -/
inductive FormValue where
  | str (s : String)
  | formData (entries : List (String × FormDataEntryValue))
  | nullValue
deriving DecidableEq

/-- The per-instance state of one `ElementInternals` object: the host
element (`refMap` entry) together with this instance's entries in
`validityMap`, `validationMessageMap`, `validationAnchorMap`,
`hiddenInputMap` and `refValueMap`. -/
structure InternalsState where
  host : HostElement
  validity : ValidityState
  validationMessage : Option String
  validationAnchor : Option Nat
  hiddenInputs : List HiddenInput
  refValue : Option FormValue
deriving DecidableEq

/-- Modelled from the spec: `throwIfNotFormAssociated` of the missing
`./utils` module — every gated member fails "with a NotSupportedError-class
error if the owning host element's type did not declare itself
form-associable"; the check reads the host's current `formAssociated`
marker on every call. -/
def throwIfNotFormAssociated (host : HostElement) (message : String) :
    Except JsError Unit :=
  if host.formAssociated then .ok () else .error { kind := .notSupportedError, message := message }

/-- A dispatched DOM event: its type string and its dispatch options. -/
structure EventRecord where
  eventType : String
  bubbles : Bool
  cancelable : Bool
  composed : Bool
deriving DecidableEq

/-- The `invalid` event built by `checkValidity`:
`new Event('invalid', { bubbles: false, cancelable: true, composed: false })`. -/
def invalidEvent : EventRecord :=
  { eventType := "invalid", bubbles := false, cancelable := true, composed := false }

/-- `EventTarget.dispatchEvent`: returns false when a listener cancels a
cancelable event, true otherwise.  `cancel` models whether the page's
listeners call `preventDefault`. -/
def dispatchEvent (ev : EventRecord) (cancel : Bool) : Bool :=
  !(ev.cancelable && cancel)

namespace ElementInternals

/-- Gate message of `setValidity`. -/
def setValidityGateMsg : String :=
  "Failed to execute setValidity on ElementInternals: The target element is not a form-associated custom element."

/-- Message of the missing-first-argument `TypeError` of `setValidity`. -/
def setValidityArgMsg : String :=
  "Failed to execute setValidity on ElementInternals: 1 argument required, but only 0 present."

/-- Message of the missing-validation-message `DOMException` of
`setValidity`. -/
def setValidityMsgRequired : String :=
  "Failed to execute setValidity on ElementInternals: The second argument should not be empty if one or more flags in the first argument are true."

/-- `ElementInternals.setValidity(validityChanges, validationMessage?, anchor?)`.
Returns the state after the call together with the thrown error, if any
(`none` on success): a JavaScript throw aborts the method but keeps every
mutation already performed, so the state is returned even on failure. -/
def setValidity (validityChanges : Option ValidityChanges)
    (validationMessage : Option String) (anchor : Option Nat)
    (s : InternalsState) : InternalsState × Option JsError :=
  match throwIfNotFormAssociated s.host setValidityGateMsg with
  | .error e => (s, some e)
  | .ok _ =>
    match validityChanges with
    | none => (s, some { kind := .typeError, message := setValidityArgMsg })
    | some changes =>
      let s1 : InternalsState := { s with validationAnchor := anchor }
      let validity1 := if isEmptyChanges changes then setValid s1.validity else s1.validity
      let check := overlay validity1 changes
      let validity2 := reconcileValidty validity1 check
      let s2 : InternalsState := { s1 with validity := validity2 }
      if !validity2.valid && msgFalsy validationMessage then
        (s2, some { kind := .domException, message := setValidityMsgRequired })
      else
        ({ s2 with
            validationMessage := if validity2.valid then some "" else validationMessage
            host := { s2.host with ariaInvalid := some (if validity2.valid then "false" else "true") } },
          none)

/-- Gate message of `checkValidity`. -/
def checkValidityGateMsg : String :=
  "Failed to execute checkValidity on ElementInternals: The target element is not a form-associated custom element."

/-- `ElementInternals.checkValidity()`.  Returns the boolean result, the
list of events dispatched on the host, and the instance state after the call
(the source performs no writes; the result of `dispatchEvent` is discarded).
`cancel` models whether the dispatched event gets cancelled by a listener. -/
def checkValidity (cancel : Bool) (s : InternalsState) :
    Except JsError (Bool × List EventRecord × InternalsState) :=
  match throwIfNotFormAssociated s.host checkValidityGateMsg with
  | .error e => .error e
  | .ok _ =>
    if !s.validity.valid then
      let _ := dispatchEvent invalidEvent cancel
      .ok (s.validity.valid, [invalidEvent], s)
    else
      .ok (s.validity.valid, [], s)

/-- Modelled from the spec: `findParentForm` of the missing `./utils`
module — external "ancestor-form discovery", specified only by its
interface; the result is carried as a field of the host element. -/
def findParentForm (host : HostElement) : Option Nat :=
  host.parentForm

/-- Gate message of the `form` getter. -/
def formGateMsg : String :=
  "Failed to read the form property from ElementInternals: The target element is not a form-associated custom element."

/-- The `form` getter. -/
def form (s : InternalsState) : Except JsError (Option Nat) :=
  match throwIfNotFormAssociated s.host formGateMsg with
  | .error e => .error e
  | .ok _ =>
    if s.host.formAssociated then .ok (findParentForm s.host) else .ok none

/-- Gate message of the `labels` getter. -/
def labelsGateMsg : String :=
  "Failed to read the labels property from ElementInternals: The target element is not a form-associated custom element."

/-- The `labels` getter: when the host root and the id attribute are both
truthy, the result of the external `querySelectorAll` lookup, else an empty
list. -/
def labels (s : InternalsState) : Except JsError (List Nat) :=
  match throwIfNotFormAssociated s.host labelsGateMsg with
  | .error e => .error e
  | .ok _ =>
    if s.host.hasHostRoot && attrTruthy s.host.idAttr then
      .ok s.host.labelsQueryResult
    else
      .ok []

/-- Gate message of `reportValidity`. -/
def reportValidityGateMsg : String :=
  "Failed to execute reportValidity on ElementInternals: The target element is not a form-associated custom element."

/-- Message of the defensive anchor check in `reportValidity`. -/
def reportValidityAnchorMsg : String :=
  "Failed to execute setValidity on ElementInternals: The target element is not a form-associated custom element."

/-- `ElementInternals.reportValidity()`.  The focus moves performed on the
host and the anchor act on the external DOM focus state, which is outside
this model. -/
def reportValidity (cancel : Bool) (s : InternalsState) : Except JsError Bool :=
  match throwIfNotFormAssociated s.host reportValidityGateMsg with
  | .error e => .error e
  | .ok _ =>
    match checkValidity cancel s with
    | .error e => .error e
    | .ok (valid, _events, _s) =>
      let anchor := s.validationAnchor
      if anchor.isSome && !s.host.formAssociated then
        .error { kind := .domException, message := reportValidityAnchorMsg }
      else
        .ok valid

/-- Modelled from the spec: `removeHiddenInputs` of the missing `./utils`
module — "always first discards any proxy inputs created by a prior call
(idempotent cleanup — safe to call when none exist)". -/
def removeHiddenInputs (s : InternalsState) : InternalsState :=
  { s with hiddenInputs := [] }

/-- Modelled from the spec: `createHiddenInput` of the missing `./utils`
module — creates one hidden proxy input as a descendant of the host,
"using the host's declared name attribute as the proxy's name", and
registers it with the instance; the caller then assigns its `value` (and,
in the `FormData` case, overwrites its `name`). -/
def createHiddenInput (host : HostElement) : HiddenInput :=
  { name := host.nameAttr, value := "" }

/-- Gate message of `setFormValue`. -/
def setFormValueGateMsg : String :=
  "Failed to execute setFormValue on ElementInternals: The target element is not a form-associated custom element."

/-- `ElementInternals.setFormValue(value)`. -/
def setFormValue (value : FormValue) (s : InternalsState) :
    Except JsError InternalsState :=
  match throwIfNotFormAssociated s.host setFormValueGateMsg with
  | .error e => .error e
  | .ok _ =>
    let s1 := removeHiddenInputs s
    let s2 :=
      match value with
      | .str v =>
        if attrTruthy s1.host.nameAttr then
          let hiddenInput := { createHiddenInput s1.host with value := v }
          { s1 with hiddenInputs := s1.hiddenInputs ++ [hiddenInput] }
        else
          s1
      | .formData entries =>
        { s1 with hiddenInputs := s1.hiddenInputs ++
            entries.filterMap (fun (e : String × FormDataEntryValue) =>
              match e.2 with
              | .str v => some { createHiddenInput s1.host with name := some e.1, value := v }
              | .file _ => none) }
      | .nullValue => s1
    .ok { s2 with refValue := some value }

/-- The `shadowRoot` getter: reads the `shadowRootMap` entry of the host
and returns it when truthy, null otherwise.  No form-associated gate. -/
def shadowRoot (s : InternalsState) : Except JsError (Option Nat) :=
  match s.host.shadowRootRec with
  | some r => .ok (some r)
  | none => .ok none

/-- Gate message of the `validationMessage` getter. -/
def validationMessageGateMsg : String :=
  "Failed to read the validationMessage property from ElementInternals: The target element is not a form-associated custom element."

/-- The `validationMessage` getter. -/
def validationMessage (s : InternalsState) : Except JsError (Option String) :=
  match throwIfNotFormAssociated s.host validationMessageGateMsg with
  | .error e => .error e
  | .ok _ => .ok s.validationMessage

/-- Gate message of the `validity` getter. -/
def validityGateMsg : String :=
  "Failed to read the validity property from ElementInternals: The target element is not a form-associated custom element."

/-- The `validity` getter. -/
def validity (s : InternalsState) : Except JsError ValidityState :=
  match throwIfNotFormAssociated s.host validityGateMsg with
  | .error e => .error e
  | .ok _ => .ok s.validity

/-- Gate message of the `willValidate` getter. -/
def willValidateGateMsg : String :=
  "Failed to read the willValidate property from ElementInternals: The target element is not a form-associated custom element."

/-- The `willValidate` getter: false when the host is disabled via the
property or a live `disabled` attribute. -/
def willValidate (s : InternalsState) : Except JsError Bool :=
  match throwIfNotFormAssociated s.host willValidateGateMsg with
  | .error e => .error e
  | .ok _ =>
    if s.host.disabledProp || s.host.disabledAttr then .ok false else .ok true

end ElementInternals

/-- `Element.prototype.attachShadow` as wrapped by `attachShadowObserver`:
the real shadow root is created by the underlying platform call, recorded in
`shadowRootMap` keyed by the host, and a mutation subscription is installed
on it (the observer itself is external wiring outside this model).  Returns
the shadow root and the updated host. -/
def attachShadowObserver (newRoot : Nat) (host : HostElement) :
    Nat × HostElement :=
  (newRoot, { host with shadowRootRec := some newRoot })

/-- The process-wide association-registry state used by the attach path:
`internalsMap` (element id to instance id), `refMap` (instance id to element
id) and `validityMap` (instance id to its validity object), each a map where
`set` prepends and lookup takes the first match, plus a counter allocating
fresh instance identities. -/
structure AttachState where
  internalsMap : List (Nat × Nat)
  refMap : List (Nat × Nat)
  validityMap : List (Nat × ValidityState)
  nextInstance : Nat
deriving DecidableEq

/-- The empty registry. -/
def attachInit : AttachState :=
  { internalsMap := [], refMap := [], validityMap := [], nextInstance := 0 }

/-- `tagName.indexOf('-') === -1` negated: the tag name holds a hyphen,
the structural marker of a custom element. -/
def hasHyphen (tagName : String) : Bool :=
  tagName.data.contains '-'

deriving instance DecidableEq for Except

/-- The `ElementInternals` constructor: rejects a ref without a hyphenated
tag name with a `TypeError`, then creates a fresh `ValidityState`, registers
`refMap`, `validityMap` and `internalsMap` entries for the new instance (a
`Map.set` on an element that already has an instance overwrites the entry),
and returns the new instance id.  The `initAom`/`initRef`/`initLabels`/
`initForm` collaborator calls touch only external DOM state. -/
def elementInternalsConstructor (elemId : Nat) (tagName : String)
    (st : AttachState) : Except JsError (Nat × AttachState) :=
  if !(hasHyphen tagName) then
    .error { kind := .typeError, message := "Illegal constructor" }
  else
    let this := st.nextInstance
    .ok (this,
      { internalsMap := (elemId, this) :: st.internalsMap
        refMap := (this, elemId) :: st.refMap
        validityMap := (this, initialValidityState) :: st.validityMap
        nextInstance := this + 1 })

/-- `Element.prototype.attachInternals` as installed by the polyfill:
rejects non-custom elements (no hyphen in the tag name) with a plain
`Error`, then calls the `ElementInternals` constructor. -/
def attachInternals (elemId : Nat) (tagName : String) (st : AttachState) :
    Except JsError (Nat × AttachState) :=
  if !(hasHyphen tagName) then
    .error { kind := .plainError
             message := "Failed to execute attachInternals on HTMLElement: Unable to attach ElementInternals to non-custom elements." }
  else
    elementInternalsConstructor elemId tagName st

/-- A form-associated custom host element used by concrete witnesses. -/
def hostFA : HostElement :=
  { tagName := "x-el", formAssociated := true, nameAttr := some "n"
    idAttr := none, disabledProp := false, disabledAttr := false
    ariaInvalid := none, shadowRootRec := none, parentForm := none
    hasHostRoot := false, labelsQueryResult := [] }

/-- The same host element with a type that is not form-associable. -/
def hostNF : HostElement :=
  { hostFA with formAssociated := false }

/-- A fresh internals state on the form-associated host. -/
def stateFA : InternalsState :=
  { host := hostFA, validity := initialValidityState, validationMessage := none
    validationAnchor := none, hiddenInputs := [], refValue := none }

/-- A fresh internals state on the non-form-associable host. -/
def stateNF : InternalsState :=
  { stateFA with host := hostNF }

/-- Changes argument setting only `customError` to true. -/
def changesCustomError : ValidityChanges :=
  { customError := some true }

/-- Changes argument setting only `valueMissing` to true. -/
def changesValueMissing : ValidityChanges :=
  { valueMissing := some true }

/-- The empty changes argument: no key present. -/
def noChanges : ValidityChanges := {}

/-- At least one named flag of the changes argument is present and true. -/
def hasTrueFlag (p : ValidityChanges) : Bool :=
  p.badInput == some true || p.customError == some true ||
  p.patternMismatch == some true || p.rangeOverflow == some true ||
  p.rangeUnderflow == some true || p.stepMismatch == some true ||
  p.tooLong == some true || p.tooShort == some true ||
  p.typeMismatch == some true || p.valueMissing == some true

lemma notEmpty_of_hasTrue (p : ValidityChanges) (h : hasTrueFlag p = true) :
    isEmptyChanges p = false := by
  simp only [hasTrueFlag, Bool.or_eq_true, beq_iff_eq] at h
  rcases h with ((((((((h|h)|h)|h)|h)|h)|h)|h)|h)|h <;> simp [isEmptyChanges, h]

lemma anyTrue_overlay_of_hasTrue (v : ValidityState) (p : ValidityChanges)
    (h : hasTrueFlag p = true) : anyTrue (overlay v p) = true := by
  simp only [hasTrueFlag, Bool.or_eq_true, beq_iff_eq] at h
  rcases h with ((((((((h|h)|h)|h)|h)|h)|h)|h)|h)|h <;> simp [anyTrue, overlay, h]

/-- Claim C1: after every successful `setValidity` call, the stored derived
flag `valid` equals the logical NOR of the stored named (non-derived)
validity flags; and a `valid` key included in the changes argument is never
used directly: its boolean value does not influence the call at all. -/
theorem setValidity_valid_is_nor (s : InternalsState) (ch : ValidityChanges)
    (msg : Option String) (anchor : Option Nat) (s' : InternalsState)
    (hok : ElementInternals.setValidity (some ch) msg anchor s = (s', none)) :
    s'.validity.valid = isValid (namedFlagsOf s'.validity)
    ∧ ∀ b b' : Bool,
        ElementInternals.setValidity (some { ch with valid := some b }) msg anchor s
          = ElementInternals.setValidity (some { ch with valid := some b' }) msg anchor s := by
  constructor
  · simp only [ElementInternals.setValidity] at hok
    split at hok
    · simp at hok
    · split at hok <;> split at hok <;>
        (simp only [Prod.mk.injEq] at hok
         obtain ⟨h1, -⟩ := hok
         subst h1
         rfl)
  · intro b b'
    rfl

/-- Claim C1 witness: a concrete successful call on a fresh state. -/
theorem setValidity_valid_is_nor_witness :
    (ElementInternals.setValidity (some changesCustomError) (some "bad") none stateFA).1.validity.valid
      = isValid (namedFlagsOf
          (ElementInternals.setValidity (some changesCustomError) (some "bad") none stateFA).1.validity) :=
  (setValidity_valid_is_nor stateFA changesCustomError (some "bad") none
    (ElementInternals.setValidity (some changesCustomError) (some "bad") none stateFA).1
    (by decide)).1

/-- Registry state after the first `attachInternals` call of the C2 run. -/
def attachSt1 : AttachState :=
  { internalsMap := [(0, 0)], refMap := [(0, 0)]
    validityMap := [(0, initialValidityState)], nextInstance := 1 }

/-- Registry state after the second `attachInternals` call of the C2 run. -/
def attachSt2 : AttachState :=
  { internalsMap := [(0, 1), (0, 0)], refMap := [(1, 0), (0, 0)]
    validityMap := [(1, initialValidityState), (0, initialValidityState)]
    nextInstance := 2 }

/-- Claim C2 evaluation: attaching internals twice to the same custom
element (element id 0, tag name "x-el") does NOT fail on the second call:
both calls succeed, the second returns a fresh distinct instance, the
element-to-instance registration is overwritten to the new instance, and the
first instance keeps its own ref and validity entries. -/
theorem attachInternals_second_call_succeeds :
    attachInternals 0 "x-el" attachInit = .ok (0, attachSt1)
    ∧ attachInternals 0 "x-el" attachSt1 = .ok (1, attachSt2)
    ∧ attachSt2.internalsMap.lookup 0 = some 1
    ∧ attachSt2.refMap.lookup 0 = some 0
    ∧ attachSt2.validityMap.lookup 0 = some initialValidityState :=
  ⟨rfl, rfl, rfl, rfl, rfl⟩

/-- Claim C3 counterexample: starting from a fresh valid state on a
form-associated host, `setValidity({valueMissing: true})` with no message
fails, yet the stored `valueMissing` flag has changed from false to true:
the failure is not atomic on the stored validity flags. -/
theorem setValidity_failure_mutates_flags_cex :
    (ElementInternals.setValidity (some changesValueMissing) none none stateFA).2
      = some { kind := .domException, message := ElementInternals.setValidityMsgRequired }
    ∧ (ElementInternals.setValidity (some changesValueMissing) none none stateFA).1.validity.valueMissing = true
    ∧ stateFA.validity.valueMissing = false := by
  decide

/-- Claim C3 (amended): calling `setValidity` with at least one flag set to
true and no (or an empty) message always fails; on that failure the stored
validation message and the host's `aria-invalid` attribute are unchanged
from before the call, but the stored validity flags have already been
updated to the merged result (and the anchor argument has been stored):
the reconciliation mutation precedes the message-required check. -/
theorem setValidity_failure_preserves_message_and_aria
    (s : InternalsState) (ch : ValidityChanges) (msg : Option String)
    (anchor : Option Nat)
    (hFA : s.host.formAssociated = true)
    (hTrue : hasTrueFlag ch = true)
    (hMsg : msgFalsy msg = true) :
    ElementInternals.setValidity (some ch) msg anchor s
      = ({ s with
            validationAnchor := anchor,
            validity := reconcileValidty s.validity (overlay s.validity ch) },
         some { kind := .domException, message := ElementInternals.setValidityMsgRequired }) := by
  have h1 := notEmpty_of_hasTrue ch hTrue
  have h2 := anyTrue_overlay_of_hasTrue s.validity ch hTrue
  simp [ElementInternals.setValidity, throwIfNotFormAssociated, hFA, h1,
    reconcileValidty, isValid, h2, hMsg]

/-- Claim C3 (amended) witness: the amended statement applied at the
concrete counterexample input. -/
theorem setValidity_failure_preserves_message_and_aria_witness :
    ElementInternals.setValidity (some changesValueMissing) none none stateFA
      = ({ stateFA with
            validationAnchor := none,
            validity := reconcileValidty stateFA.validity (overlay stateFA.validity changesValueMissing) },
         some { kind := .domException, message := ElementInternals.setValidityMsgRequired }) :=
  setValidity_failure_preserves_message_and_aria stateFA changesValueMissing none none
    (by decide) (by decide) (by decide)

/-- Claim C4 counterexample: at a concrete call whose merged validity is
invalid and whose message is omitted, the thrown error comes from the
`DOMException` constructor, not a `TypeError`-class one. -/
theorem setValidity_missing_message_error_kind_cex :
    (ElementInternals.setValidity (some changesCustomError) none none stateFA).2.map JsError.kind
      = some JsErrorKind.domException
    ∧ JsErrorKind.domException ≠ JsErrorKind.typeError := by
  decide

/-- Claim C4 (amended): whenever the merged validity resulting from a
`setValidity` call is invalid and the message argument is omitted or empty,
the call fails with a `DOMException`-class error (the source constructs a
plain `DOMException`, not a `TypeError`). -/
theorem setValidity_missing_message_throws_domexception
    (s : InternalsState) (ch : ValidityChanges) (msg : Option String)
    (anchor : Option Nat)
    (hFA : s.host.formAssociated = true)
    (hInvalid : isValid (overlay (if isEmptyChanges ch then setValid s.validity else s.validity) ch) = false)
    (hMsg : msgFalsy msg = true) :
    (ElementInternals.setValidity (some ch) msg anchor s).2
      = some { kind := .domException, message := ElementInternals.setValidityMsgRequired } := by
  simp [ElementInternals.setValidity, throwIfNotFormAssociated, hFA,
    reconcileValidty, hInvalid, hMsg]

/-- Claim C4 (amended) witness: the amended statement applied at a concrete
input. -/
theorem setValidity_missing_message_throws_domexception_witness :
    (ElementInternals.setValidity (some changesCustomError) none none stateFA).2
      = some { kind := .domException, message := ElementInternals.setValidityMsgRequired } :=
  setValidity_missing_message_throws_domexception stateFA changesCustomError none none
    (by decide) (by decide) (by decide)

/-- Claim C5: for every prior state on a form-associated host, calling
`setValidity` with the empty changes object resets every named flag to
false, yields `valid = true`, stores the empty message, and reflects
"false" into `aria-invalid`. -/
theorem setValidity_empty_changes_forces_valid
    (s : InternalsState) (msg : Option String) (anchor : Option Nat)
    (hFA : s.host.formAssociated = true) :
    ElementInternals.setValidity (some noChanges) msg anchor s
      = ({ s with
            validationAnchor := anchor,
            validity := initialValidityState,
            validationMessage := some "",
            host := { s.host with ariaInvalid := some "false" } }, none) := by
  simp [ElementInternals.setValidity, throwIfNotFormAssociated, hFA, noChanges,
    isEmptyChanges, setValid, overlay, reconcileValidty, isValid, anyTrue,
    initialValidityState]

/-- Claim C5 witness: the statement applied at a concrete state whose
`customError` flag is set and whose message is non-empty. -/
theorem setValidity_empty_changes_forces_valid_witness :
    ElementInternals.setValidity (some noChanges) none none
      { stateFA with
          validity := { initialValidityState with customError := true, valid := false },
          validationMessage := some "bad",
          host := { hostFA with ariaInvalid := some "true" } }
      = ({ stateFA with
            validationAnchor := none,
            validity := initialValidityState,
            validationMessage := some "",
            host := { hostFA with ariaInvalid := some "false" } }, none) :=
  setValidity_empty_changes_forces_valid
    { stateFA with
        validity := { initialValidityState with customError := true, valid := false },
        validationMessage := some "bad",
        host := { hostFA with ariaInvalid := some "true" } }
    none none (by decide)

/-- Claim C6: on every successful `setValidity` call, the stored message is
forced to the empty string when the recomputed `valid` is true regardless of
the message argument, the passed message is stored when `valid` is false,
and `aria-invalid` is set to exactly "false" when valid and "true" when
invalid. -/
theorem setValidity_success_message_and_aria
    (s : InternalsState) (ch : ValidityChanges) (msg : Option String)
    (anchor : Option Nat) (s' : InternalsState)
    (hok : ElementInternals.setValidity (some ch) msg anchor s = (s', none)) :
    (s'.validity.valid = true →
      s'.validationMessage = some "" ∧ s'.host.ariaInvalid = some "false")
    ∧ (s'.validity.valid = false →
      s'.validationMessage = msg ∧ s'.host.ariaInvalid = some "true") := by
  simp only [ElementInternals.setValidity] at hok
  split at hok
  · simp at hok
  · split at hok <;> split at hok <;>
      first
        | (simp only [Prod.mk.injEq] at hok
           obtain ⟨h1, -⟩ := hok
           subst h1
           constructor <;> (intro hv; simp_all)
           done)
        | simp at hok

/-- Claim C6 witness: a concrete successful invalid call stores the passed
message and sets `aria-invalid` to "true". -/
theorem setValidity_success_message_and_aria_witness :
    (ElementInternals.setValidity (some changesCustomError) (some "bad") none stateFA).1.validationMessage = some "bad"
    ∧ (ElementInternals.setValidity (some changesCustomError) (some "bad") none stateFA).1.host.ariaInvalid = some "true" :=
  (setValidity_success_message_and_aria stateFA changesCustomError (some "bad") none
    (ElementInternals.setValidity (some changesCustomError) (some "bad") none stateFA).1
    (by decide)).2 (by decide)

/-- Claim C7: on a form-associated host, `checkValidity` returns the current
`valid` flag, dispatches exactly one non-bubbling, cancelable, non-composed
"invalid" event if and only if the state is invalid, leaves the instance
state unchanged, and its result does not depend on whether a listener
cancels the event. -/
theorem checkValidity_contract (s : InternalsState) (cancel : Bool)
    (hFA : s.host.formAssociated = true) :
    ElementInternals.checkValidity cancel s
      = .ok (s.validity.valid, (if s.validity.valid then [] else [invalidEvent]), s)
    ∧ (∀ c : Bool, ElementInternals.checkValidity c s = ElementInternals.checkValidity cancel s)
    ∧ invalidEvent.eventType = "invalid" ∧ invalidEvent.bubbles = false
    ∧ invalidEvent.cancelable = true ∧ invalidEvent.composed = false := by
  refine ⟨?_, fun c => rfl, rfl, rfl, rfl, rfl⟩
  simp only [ElementInternals.checkValidity, throwIfNotFormAssociated, hFA, if_true]
  cases h : s.validity.valid <;> simp [h]

/-- Claim C7 witness: the contract applied at a concrete invalid state. -/
theorem checkValidity_contract_witness :
    ElementInternals.checkValidity false
        { stateFA with validity := { initialValidityState with valueMissing := true, valid := false } }
      = .ok (false, [invalidEvent],
          { stateFA with validity := { initialValidityState with valueMissing := true, valid := false } }) :=
  (checkValidity_contract
    { stateFA with validity := { initialValidityState with valueMissing := true, valid := false } }
    false (by decide)).1

/-- The set of proxy inputs the specification prescribes for one
`setFormValue` argument: none for `null`; none for a string on an unnamed
host and one proxy carrying the host's name and the value on a named host;
one proxy per string-valued entry, named by its own key, for `FormData`. -/
def proxiesFor (host : HostElement) : FormValue → List HiddenInput
  | .nullValue => []
  | .str x =>
      if attrTruthy host.nameAttr then [{ name := host.nameAttr, value := x }] else []
  | .formData entries =>
      entries.filterMap (fun (e : String × FormDataEntryValue) =>
        match e.2 with
        | .str v => some { name := some e.1, value := v }
        | .file _ => none)

/-- Claim C8: after every `setFormValue` call on a form-associated host, the
proxy inputs of prior calls are discarded and the resulting proxy set is
exactly the one prescribed by `proxiesFor`: empty for `null`, empty for a
string on a host with no non-empty `name` attribute, one host-named proxy
for a string on a named host, and one proxy per string-valued entry (named
by its own key, host name ignored, non-string entries skipped) for
`FormData`; the raw value is stored as the instance's current form value. -/
theorem setFormValue_proxy_sync (s : InternalsState) (v : FormValue)
    (hFA : s.host.formAssociated = true) :
    ElementInternals.setFormValue v s
      = .ok { s with hiddenInputs := proxiesFor s.host v, refValue := some v } := by
  cases v with
  | str x =>
      cases hn : attrTruthy s.host.nameAttr <;>
        simp [ElementInternals.setFormValue, throwIfNotFormAssociated, hFA,
          ElementInternals.removeHiddenInputs, ElementInternals.createHiddenInput,
          proxiesFor, hn]
  | formData entries =>
      simp [ElementInternals.setFormValue, throwIfNotFormAssociated, hFA,
        ElementInternals.removeHiddenInputs, ElementInternals.createHiddenInput,
        proxiesFor]
  | nullValue =>
      simp [ElementInternals.setFormValue, throwIfNotFormAssociated, hFA,
        ElementInternals.removeHiddenInputs, proxiesFor]

/-- Claim C8 witness: a concrete call with a single string on a host named
"n". -/
theorem setFormValue_proxy_sync_witness :
    ElementInternals.setFormValue (.str "x") stateFA
      = .ok { stateFA with
                hiddenInputs := proxiesFor stateFA.host (.str "x"),
                refValue := some (.str "x") } :=
  setFormValue_proxy_sync stateFA (.str "x") (by decide)

/-- Claim C9: on a host whose type is not form-associable—whatever the rest
of the state and the arguments—every gated member (`form`, `labels`,
`validity`, `validationMessage`, `willValidate`, `checkValidity`,
`reportValidity`, `setValidity`, `setFormValue`) fails with the
NotSupportedError-class association error and performs no state change; the
gate reads the host's current marker on each call, so this holds at every
state with the marker unset, never returning a default instead. -/
theorem gated_members_throw_not_supported
    (s : InternalsState) (cancel : Bool) (v : FormValue)
    (chOpt : Option ValidityChanges) (msg : Option String) (anchor : Option Nat)
    (hNF : s.host.formAssociated = false) :
    ElementInternals.form s
      = .error { kind := .notSupportedError, message := ElementInternals.formGateMsg }
    ∧ ElementInternals.labels s
      = .error { kind := .notSupportedError, message := ElementInternals.labelsGateMsg }
    ∧ ElementInternals.validity s
      = .error { kind := .notSupportedError, message := ElementInternals.validityGateMsg }
    ∧ ElementInternals.validationMessage s
      = .error { kind := .notSupportedError, message := ElementInternals.validationMessageGateMsg }
    ∧ ElementInternals.willValidate s
      = .error { kind := .notSupportedError, message := ElementInternals.willValidateGateMsg }
    ∧ ElementInternals.checkValidity cancel s
      = .error { kind := .notSupportedError, message := ElementInternals.checkValidityGateMsg }
    ∧ ElementInternals.reportValidity cancel s
      = .error { kind := .notSupportedError, message := ElementInternals.reportValidityGateMsg }
    ∧ ElementInternals.setValidity chOpt msg anchor s
      = (s, some { kind := .notSupportedError, message := ElementInternals.setValidityGateMsg })
    ∧ ElementInternals.setFormValue v s
      = .error { kind := .notSupportedError, message := ElementInternals.setFormValueGateMsg } := by
  refine ⟨?_, ?_, ?_, ?_, ?_, ?_, ?_, ?_, ?_⟩ <;>
    simp [ElementInternals.form, ElementInternals.labels, ElementInternals.validity,
      ElementInternals.validationMessage, ElementInternals.willValidate,
      ElementInternals.checkValidity, ElementInternals.reportValidity,
      ElementInternals.setValidity, ElementInternals.setFormValue,
      throwIfNotFormAssociated, hNF]

/-- Claim C9 witness: the gate failures at a concrete non-form-associable
state. -/
theorem gated_members_throw_not_supported_witness :
    ElementInternals.checkValidity false stateNF
      = .error { kind := .notSupportedError, message := ElementInternals.checkValidityGateMsg }
    ∧ ElementInternals.setValidity (some noChanges) none none stateNF
      = (stateNF, some { kind := .notSupportedError, message := ElementInternals.setValidityGateMsg }) :=
  ⟨(gated_members_throw_not_supported stateNF false .nullValue (some noChanges) none none
      (by decide)).2.2.2.2.2.1,
   (gated_members_throw_not_supported stateNF false .nullValue (some noChanges) none none
      (by decide)).2.2.2.2.2.2.2.1⟩

/-- Claim C10: the `shadowRoot` getter is exempt from the form-associable
gate: at every instance state—form-associable or not—it never fails, and it
returns exactly the shadow root recorded for the host at shadow-attach time
(null when none has been recorded); after an `attachShadow` interception
recording root `r`, it returns `r`. -/
theorem shadowRoot_ungated_returns_recorded (s : InternalsState) (r : Nat) :
    ElementInternals.shadowRoot s = .ok s.host.shadowRootRec
    ∧ ElementInternals.shadowRoot
        { s with host := (attachShadowObserver r s.host).2 } = .ok (some r) := by
  constructor
  · cases h : s.host.shadowRootRec <;> simp [ElementInternals.shadowRoot, h]
  · rfl
